import Mathlib

/-!
# Spot-Value Scoring Engine — verification development

Shallow embedding of the NFL survivor "spot value" scoring engine, translated
from three script variants of the repository:

* `SVU`  — `scripts/spot_value_updates.py` (the canonical, "LOCKED" logistic-win
  scorer, v1.0);
* `HF`   — `picks/survivor/_handoff/spot_value_updates.py` (the handoff variant
  with the linear win rescale, the 60/40 scarcity combination, the NaN guard and
  the essential-column check);
* `USV`  — `scripts/update_spot_values.py` (the older row-wise scorer).

Numbers are modelled as exact rationals (`ℚ`).  A pandas cell that may be
NaN/NA is modelled as `Option ℚ` (`none` = NaN), with the pandas propagation
rules made explicit: arithmetic propagates `none`, `fillna` is `Option.getD`,
`clip` keeps `none`, and an ordered comparison against NaN is `false`.  The two
transcendental kernels used by the scripts (`np.exp` in the logistic win curve
and `np.tanh` in the rating/DVOA components) are passed in as explicit function
parameters `e`/`th : ℚ → ℚ`; every property proved below is independent of
their values, which keeps every definition computable.
-/

namespace SpotValue

/-- Source: `Series.clip(lo, hi)` on a present cell. -/
def clip (lo hi x : ℚ) : ℚ := max lo (min hi x)

/-- Source: `Series.clip(0, 1)` on a present cell — the per-component score clamp. -/
def clip01 (x : ℚ) : ℚ := clip 0 1 x

/-- Source: `Series.fillna(d)`: replace a NaN cell by the default `d`. -/
def ofill (d : ℚ) (o : Option ℚ) : ℚ := o.getD d

/-- Addition of possibly-NaN cells: NaN propagates. -/
def oadd (a b : Option ℚ) : Option ℚ :=
  match a, b with
  | some x, some y => some (x + y)
  | _, _ => none

/-- Subtraction of possibly-NaN cells: NaN propagates. -/
def osub (a b : Option ℚ) : Option ℚ :=
  match a, b with
  | some x, some y => some (x - y)
  | _, _ => none

/-- Multiplication of possibly-NaN cells: NaN propagates (`0 * NaN = NaN`). -/
def omul (a b : Option ℚ) : Option ℚ :=
  match a, b with
  | some x, some y => some (x * y)
  | _, _ => none

/-- Source: `series >= y` in pandas: a NaN cell compares `False`. -/
def oge (o : Option ℚ) (y : ℚ) : Bool :=
  match o with
  | some x => decide (y ≤ x)
  | none => false

/-- ASCII lower-casing of one character (the repository's labels are ASCII). -/
def lowerChar (c : Char) : Char :=
  if 'A' ≤ c ∧ c ≤ 'Z' then Char.ofNat (c.toNat + 32) else c

/-- ASCII upper-casing of one character. -/
def upperChar (c : Char) : Char :=
  if 'a' ≤ c ∧ c ≤ 'z' then Char.ofNat (c.toNat - 32) else c

/-- Pandas `.str.lower()` over the ASCII labels used by the scripts. -/
def strLower (s : String) : String := String.mk (s.data.map lowerChar)

/-- Pandas `.str.upper()` over the ASCII labels used by the scripts. -/
def strUpper (s : String) : String := String.mk (s.data.map upperChar)

theorem clip01_nonneg (x : ℚ) : 0 ≤ clip01 x := le_max_left 0 (min 1 x)

theorem clip01_le_one (x : ℚ) : clip01 x ≤ 1 := by
  apply max_le
  · exact zero_le_one
  · exact min_le_left 1 x

end SpotValue

open SpotValue

namespace SVU

/-! ## `scripts/spot_value_updates.py` — canonical scorer -/

def W_WIN : ℚ := 42/100
def W_HOME : ℚ := 12/100
def W_REST : ℚ := 10/100
def W_RATING : ℚ := 12/100
def RATING_WIDTH : ℚ := 8
def W_INJURY : ℚ := 6/100
def INJURY_CAP : ℚ := 10/100
def W_SCARCITY_TOTAL : ℚ := 12/100
def W_DVOA_LEVEL : ℚ := 18/100
def W_DVOA_TREND : ℚ := 6/100
def LEVEL_CAP : ℚ := 20/100
def TREND_SCALE_PP : ℚ := 10
def MAX_TREND_BONUS : ℚ := 3/100
def HI_THRESH : ℚ := 51/100
def MED_THRESH : ℚ := 41/100
def HOLIDAY_TG_PENALTY : ℚ := -12/100
def HOLIDAY_BF_PENALTY : ℚ := -8/100
def HOLIDAY_XMAS_PENALTY : ℚ := -12/100
def HOLIDAY_COMBO_EXTRA : ℚ := -5/100
def NOW_NEVER_MARGIN : ℚ := 5/100
def NOW_NEVER_BONUS : ℚ := 25/1000

/-- One roadmap row after `ensure_columns` has coerced the dtypes
(`pd.to_numeric(..., errors="coerce")`, week as nullable `Int64`).
`none` stands for a NaN/NA cell. -/
structure Row where
  week : Option Int
  team : String
  opponent : String
  home_or_away : Option String
  projected_win_prob : Option ℚ
  rest_days : Option ℚ
  rating_gap : Option ℚ
  injury_adjustment : Option ℚ
  dvoa_gap_dec : Option ℚ
  trend3_pp : Option ℚ
  trend_band : String
  is_thanksgiving : Int
  is_black_friday : Int
  is_christmas : Int
  plays_both_tg_xmas : Int
deriving DecidableEq

/-- Source: `win_component`'s input: `df["projected_win_prob"].clip(0,1).fillna(0.5)`. -/
def winProbFilled (r : Row) : ℚ := ofill (1/2) (r.projected_win_prob.map (clip 0 1))

/-- Source: `win_component`: `W_WIN * 1/(1 + exp(-k (wp - 0.5)))`, `k = 6.0`.
`e` stands for `np.exp`. -/
def win_component (e : ℚ → ℚ) (r : Row) : ℚ :=
  W_WIN * (1 / (1 + e (-(6 * (winProbFilled r - 1/2)))))

/-- Source: `(df["home_or_away"].str.lower() == "home") * W_HOME`; a NaN cell compares
unequal, hence contributes 0. -/
def sv_home (r : Row) : ℚ :=
  if r.home_or_away.map strLower = some "home" then W_HOME else 0

/-- Source: `((rest_days.fillna(0).clip(4,10) - 4) / 6.0) * W_REST`. -/
def sv_rest (r : Row) : ℚ := (clip 4 10 (ofill 0 r.rest_days) - 4) / 6 * W_REST

/-- Source: `base_score`: running score after win + home + rest, clipped to [0,1]. -/
def score_base (e : ℚ → ℚ) (r : Row) : ℚ :=
  clip01 (win_component e r + sv_home r + sv_rest r)

/-- Source: `add_rating_component`: `W_RATING * tanh(rating_gap.fillna(0) / 8)`.
`th` stands for `np.tanh`. -/
def sv_rating (th : ℚ → ℚ) (r : Row) : ℚ :=
  W_RATING * th (ofill 0 r.rating_gap / RATING_WIDTH)

def score_rating (e th : ℚ → ℚ) (r : Row) : ℚ :=
  clip01 (score_base e r + sv_rating th r)

/-- Source: `BAND_BUMP` lookup on `trend_band.str.upper()`, `.fillna(0.0)`. -/
def bandBump (s : String) : ℚ :=
  if strUpper s = "UP" then 15/1000
  else if strUpper s = "DOWN" then -12/1000
  else 0

/-- Source: `add_dvoa_component`: LIVE level + trend (dampened to 40% before week 5,
with `week.fillna(99)`) + band nudge. -/
def sv_dvoa (r : Row) : ℚ :=
  let sv_level := W_DVOA_LEVEL * clip (-LEVEL_CAP) LEVEL_CAP (ofill 0 r.dvoa_gap_dec)
  let trend_norm := clip (-1) 1 (ofill 0 r.trend3_pp / TREND_SCALE_PP)
  let sv_trend0 := clip (-MAX_TREND_BONUS) MAX_TREND_BONUS (W_DVOA_TREND * trend_norm)
  let sv_trend := if r.week.getD 99 < 5 then sv_trend0 * (4/10) else sv_trend0
  sv_level + sv_trend + bandBump r.trend_band

def score_dvoa (e th : ℚ → ℚ) (r : Row) : ℚ :=
  clip01 (score_rating e th r + sv_dvoa r)

/-- Source: `add_injury_component`: `W_INJURY * injury_adjustment.fillna(0).clip(±0.10)`. -/
def sv_injury (r : Row) : ℚ :=
  W_INJURY * clip (-INJURY_CAP) INJURY_CAP (ofill 0 r.injury_adjustment)

def score_injury (e th : ℚ → ℚ) (r : Row) : ℚ :=
  clip01 (score_dvoa e th r + sv_injury r)

/-- Source: `add_holiday_penalty`: per-flag penalties plus the combo extra. -/
def sv_holiday (r : Row) : ℚ :=
  (r.is_thanksgiving : ℚ) * HOLIDAY_TG_PENALTY
    + (r.is_black_friday : ℚ) * HOLIDAY_BF_PENALTY
    + (r.is_christmas : ℚ) * HOLIDAY_XMAS_PENALTY
    + (if (0 < r.is_thanksgiving + r.is_black_friday ∧ 0 < r.is_christmas)
          ∨ (0 < r.plays_both_tg_xmas
              ∧ 0 < r.is_thanksgiving + r.is_black_friday + r.is_christmas)
       then HOLIDAY_COMBO_EXTRA else 0)

def score_holiday (e th : ℚ → ℚ) (r : Row) : ℚ :=
  clip01 (score_injury e th r + sv_holiday r)

/-! `add_future_scarcity_boost` groups by `team` (preserving within-group
order) and, inside a group, takes a reversed cumulative maximum of
`projected_win_prob.fillna(0.0)` rolled by one, with the final position forced
to `0.0`.  Row `i`'s `max_future_prob` is therefore the maximum filled
probability over the same-team rows strictly after position `i`, and `0` when
no such row exists.  We embed this per row position. -/

/-- The probability a row contributes to the scarcity cummax:
`pd.to_numeric(g["projected_win_prob"], errors="coerce").fillna(0.0)`. -/
def probForScarcity (r : Row) : ℚ := ofill 0 r.projected_win_prob

/-- Filled win probabilities of the same-team rows strictly after position `i`. -/
def futureTeamProbs (t : List Row) (r : Row) (i : ℕ) : List ℚ :=
  ((t.drop (i+1)).filter (fun s => s.team = r.team)).map probForScarcity

/-- Source: `max_future_prob` at row position `i` (`0.0` when no future row remains). -/
def max_future_prob (t : List Row) (r : Row) (i : ℕ) : ℚ :=
  (futureTeamProbs t r i).max?.getD 0

/-- Source: `sv_scarcity_raw = ((prob - max_future).clip(lower=0) / 0.30).clip(0,1)`;
a NaN probability stays NaN through the whole chain. -/
def sv_scarcity_raw (t : List Row) (r : Row) (i : ℕ) : Option ℚ :=
  r.projected_win_prob.map
    (fun p => clip01 (max 0 (p - max_future_prob t r i) / (30/100)))

/-- Source: `sv_scarcity = W_SCARCITY_TOTAL * sv_scarcity_raw`. -/
def sv_scarcity (t : List Row) (r : Row) (i : ℕ) : Option ℚ :=
  (sv_scarcity_raw t r i).map (fun x => W_SCARCITY_TOTAL * x)

/-- Source: `is_now_or_never = prob >= max_future + margin` (False on NaN). -/
def is_now_or_never (t : List Row) (r : Row) (i : ℕ) : Bool :=
  oge r.projected_win_prob (max_future_prob t r i + NOW_NEVER_MARGIN)

/-- Source: `sv_now_or_never = bonus * ((prob - max_future - margin).clip(lower=0) / 0.10).clip(0,1)`. -/
def sv_now_or_never (t : List Row) (r : Row) (i : ℕ) : Option ℚ :=
  r.projected_win_prob.map
    (fun p =>
      NOW_NEVER_BONUS
        * clip01 (max 0 (p - max_future_prob t r i - NOW_NEVER_MARGIN) / (10/100)))

/-- Final `spot_value_score` of the row at position `i`:
`(score + sv_scarcity + sv_now_or_never).clip(0,1)`.
(`add_holiday_highlights` would add a further soft term, but its knob
`HOLIDAY_HOLDOUT_SOFT` is `0.0` in the source, so it leaves the score column
untouched.) -/
def score_final (e th : ℚ → ℚ) (t : List Row) (r : Row) (i : ℕ) : Option ℚ :=
  (oadd (oadd (some (score_holiday e th r)) (sv_scarcity t r i))
      (sv_now_or_never t r i)).map clip01

/-- Source: `add_buckets.bucket_row`.  The score `x` may be NaN (`none`); the week cell
may be NA (`none`).  Python evaluates `x >= HI_THRESH and week <= 6`
left-to-right: when `x >= HI_THRESH` holds and the week cell is `pd.NA`,
`pd.NA <= 6` is `NA` and using it as a branch condition raises `TypeError`,
modelled as `Except.error ()`. -/
def bucket_row (x : Option ℚ) (week : Option Int) : Except Unit String :=
  if oge x HI_THRESH then
    match week with
    | none => Except.error ()
    | some w => if w ≤ 6 then Except.ok "Medium" else Except.ok "High"
  else if oge x MED_THRESH then Except.ok "Medium"
  else Except.ok "Low"

/-- Column-level `ensure_columns`: every key of the `defaults` dict that is
absent from the CSV's column set is created as a constant default column
(`df[k] = v`); a present column keeps its coerced cell values.  Note the
essential identity inputs `projected_win_prob`, `home_or_away` and `rest_days`
are among the defaulted keys: an absent column is silently fabricated. -/
def ensure_columns (cols : List String) (r : Row) : Row :=
  { r with
    projected_win_prob :=
      if cols.contains "projected_win_prob" then r.projected_win_prob
      else some (50/100)
    home_or_away :=
      if cols.contains "home_or_away" then r.home_or_away else some "Home"
    rest_days := if cols.contains "rest_days" then r.rest_days else some 6
    rating_gap := if cols.contains "rating_gap" then r.rating_gap else none
    injury_adjustment :=
      if cols.contains "injury_adjustment" then r.injury_adjustment else some 0
    dvoa_gap_dec := if cols.contains "dvoa_gap_dec" then r.dvoa_gap_dec else none
    trend3_pp := if cols.contains "trend3_pp" then r.trend3_pp else none
    trend_band := if cols.contains "trend_band" then r.trend_band else ""
    is_thanksgiving :=
      if cols.contains "is_thanksgiving" then r.is_thanksgiving else 0
    is_black_friday :=
      if cols.contains "is_black_friday" then r.is_black_friday else 0
    is_christmas := if cols.contains "is_christmas" then r.is_christmas else 0
    plays_both_tg_xmas :=
      if cols.contains "plays_both_tg_xmas" then r.plays_both_tg_xmas else 0 }

/-- Canonical `main`: `ensure_columns`, the full component pipeline, then
buckets.  There is no essential-column sanity check and no NaN guard.  The
only failure mode modelled is the `TypeError` that `bucket_row` can raise,
which aborts the run before anything is written; otherwise the scored and
bucketed table is written out.  (Modelled for frames whose `week` and `team`
columns are present, which the pipeline indexes unconditionally.) -/
def run (e th : ℚ → ℚ) (cols : List String) (t : List Row) :
    Except Unit (List (Option ℚ × String)) :=
  let t2 := t.map (ensure_columns cols)
  t2.enum.mapM (fun p =>
    (bucket_row (score_final e th t2 p.2 p.1) p.2.week).map
      (fun b => (score_final e th t2 p.2 p.1, b)))

end SVU

namespace HF

/-! ## `picks/survivor/_handoff/spot_value_updates.py` — handoff scorer -/

def W_WIN : ℚ := 80/100
def W_HOME : ℚ := 10/100
def W_REST : ℚ := 10/100
def W_RATING : ℚ := 10/100
def RATING_WIDTH : ℚ := 6
def MAX_DVOA_ADJ : ℚ := 6/100
def DVOA_WIDTH : ℚ := 15
def W_INJURY : ℚ := 1
def INJURY_CAP : ℚ := 5/100
def W_HOLIDAY : ℚ := 3/100
def FUTURE_GOOD_THRESH : ℚ := 55/100
def W_SCARCITY_TOTAL : ℚ := 10/100
def OD_MARGIN_LOW : ℚ := -20/100
def OD_MARGIN_HIGH : ℚ := 30/100
def MAX_SCARCITY_CONTRIB : ℚ := 12/100
def HI_THRESH : ℚ := 70/100
def MED_THRESH : ℚ := 55/100

def essential_cols : List String :=
  ["week", "team", "opponent", "home_or_away", "rest_days", "projected_win_prob"]

/-- One row after `ensure_columns` in the handoff script: `projected_win_prob`
is `fillna(0.50)`-ed, `rest_days` `fillna(6)`-ed, `injury_adjustment`
`fillna(0.0)`-ed and `home_or_away` title-cased, so those carry plain values;
`week` keeps NaN (`none`), and the optional signal columns stay nullable.
`rating_gap` holds the already-resolved gap (`rating_gap`, falling back to
`power_gap` when the former is entirely NaN — see `resolve_rating_gap`). -/
structure Row where
  week : Option ℚ
  team : String
  opponent : String
  home_or_away : String
  projected_win_prob : ℚ
  rest_days : ℚ
  rating_gap : Option ℚ
  injury_adjustment : ℚ
  holiday_flag : String
  team_tot_dvoa : Option ℚ
  opp_tot_dvoa : Option ℚ
  team_total_dvoa : Option ℚ
  opp_total_dvoa : Option ℚ
deriving DecidableEq

/-- Source: `ensure_columns`' column-level fallback for the rating gap: prefer the
`rating_gap` column; when it is entirely NaN and a `power_gap` column exists,
use `power_gap` instead. -/
def resolve_rating_gap (rg pg : List (Option ℚ)) (power_present : Bool) :
    List (Option ℚ) :=
  if rg.all (fun o => o.isNone) ∧ power_present then pg else rg

/-- Source: `base_score`: linear win rescale over the band [0.30, 0.85], flat home
bonus, linear rest rescale over [4, 10]; sum clipped to [0,1]. -/
def sv_win (r : Row) : ℚ :=
  W_WIN * ((clip (30/100) (85/100) r.projected_win_prob - 30/100) / (85/100 - 30/100))

def sv_home (r : Row) : ℚ := if r.home_or_away = "Home" then W_HOME else 0

def sv_rest (r : Row) : ℚ := W_REST * ((clip 4 10 r.rest_days - 4) / (10 - 4))

def score_base (r : Row) : ℚ := clip01 (sv_win r + sv_home r + sv_rest r)

/-- Source: `add_rating_component`: `W_RATING * tanh(rating_gap.fillna(0) / 6)`. -/
def sv_rating (th : ℚ → ℚ) (r : Row) : ℚ :=
  W_RATING * th (ofill 0 r.rating_gap / RATING_WIDTH)

def score_rating (th : ℚ → ℚ) (r : Row) : ℚ :=
  clip01 (score_base r + sv_rating th r)

/-- Source: `add_dvoa_component`: coalesce the two DVOA column spellings, take the gap
(`(team - opp).fillna(0)`), saturate through tanh, and halve the adjustment
when the win probability is already ≥ 0.70. -/
def sv_dvoa (th : ℚ → ℚ) (r : Row) : ℚ :=
  let gap :=
    match r.team_tot_dvoa.orElse (fun _ => r.team_total_dvoa),
        r.opp_tot_dvoa.orElse (fun _ => r.opp_total_dvoa) with
    | some a, some b => a - b
    | _, _ => 0
  let adj := MAX_DVOA_ADJ * th (gap / DVOA_WIDTH)
  if 70/100 ≤ r.projected_win_prob then adj * (1/2) else adj

def score_dvoa (th : ℚ → ℚ) (r : Row) : ℚ :=
  clip01 (score_rating th r + sv_dvoa th r)

def sv_injury (r : Row) : ℚ :=
  W_INJURY * clip (-INJURY_CAP) INJURY_CAP r.injury_adjustment

def score_injury (th : ℚ → ℚ) (r : Row) : ℚ :=
  clip01 (score_dvoa th r + sv_injury r)

/-- Source: `add_holiday_penalty`: flat penalty when `holiday_flag.title()` is
Thanksgiving or Christmas. -/
def sv_holiday (r : Row) : ℚ :=
  if r.holiday_flag = "Thanksgiving" ∨ r.holiday_flag = "Christmas"
  then -W_HOLIDAY else 0

def score_holiday (th : ℚ → ℚ) (r : Row) : ℚ :=
  clip01 (score_injury th r + sv_holiday r)

/-! `add_future_scarcity_boost` first sorts the table by `(team, week)` (NaN
weeks last), re-fills `projected_win_prob` with 0.0 (already non-NaN after
`ensure_columns`), and per team computes a reversed cumulative maximum /
reversed cumulative count rolled by one position, forcing the last position to
0.  We state the per-team metrics over the team's probability sequence `g`
(the group's rows in sorted order): position `i`'s future metrics are computed
from `g.drop (i+1)`. -/

/-- Source: `max_future_prob[i]`: maximum probability strictly after position `i`
(`0.0` when no future week remains). -/
def max_future (g : List ℚ) (i : ℕ) : ℚ := ((g.drop (i+1)).max?).getD 0

/-- Source: `future_depth_ge55[i]`: count of strictly-future positions with
probability at or above `FUTURE_GOOD_THRESH`. -/
def future_depth (g : List ℚ) (i : ℕ) : ℕ :=
  (g.drop (i+1)).countP (fun q => decide (FUTURE_GOOD_THRESH ≤ q))

/-- Source: `opportunity_delta = projected_win_prob - max_future_prob`
(NOT clamped at zero).  Position `i`'s probability is read with `getD`
(only in-range positions occur in the pipeline). -/
def opportunity_delta (g : List ℚ) (i : ℕ) : ℚ :=
  g.getD i 0 - max_future g i

/-- Source: `norm_od`: clamp the delta into `[OD_MARGIN_LOW, OD_MARGIN_HIGH]` and
rescale to [0,1]. -/
def norm_od (x : ℚ) : ℚ :=
  if OD_MARGIN_HIGH ≠ OD_MARGIN_LOW then
    (clip OD_MARGIN_LOW OD_MARGIN_HIGH x - OD_MARGIN_LOW)
      / (OD_MARGIN_HIGH - OD_MARGIN_LOW)
  else 1/2

/-- Source: `FD_norm = 1 - clip(depth, 0, 3) / 3`. -/
def FD_norm (d : ℕ) : ℚ := 1 - clip 0 3 (d : ℚ) / 3

/-- Source: `future_scarcity_boost_raw = (0.6 OD_norm + 0.4 FD_norm).clip(0, MAX_SCARCITY_CONTRIB)`. -/
def future_scarcity_boost_raw (g : List ℚ) (i : ℕ) : ℚ :=
  clip 0 MAX_SCARCITY_CONTRIB
    (6/10 * norm_od (opportunity_delta g i) + 4/10 * FD_norm (future_depth g i))

/-- Source: `future_scarcity_boost = W_SCARCITY_TOTAL * (raw / MAX_SCARCITY_CONTRIB)` —
the amount actually added into the running score (`sv_scarcity`). -/
def future_scarcity_boost (g : List ℚ) (i : ℕ) : ℚ :=
  W_SCARCITY_TOTAL * (future_scarcity_boost_raw g i / MAX_SCARCITY_CONTRIB)

/-- The scarcity contribution as the spec sentence behind the claim reads it:
`W_SCARCITY_TOTAL` times the 60/40 combination itself ("Combine the two
signals (e.g. weighted 60/40) into a raw score in [0,1], scale by
`W_SCARCITY_TOTAL`").  Kept separate from the source-derived
`future_scarcity_boost` for the refinement comparison. -/
def claimedBoost (g : List ℚ) (i : ℕ) : ℚ :=
  W_SCARCITY_TOTAL *
    (6/10 * norm_od (opportunity_delta g i) + 4/10 * FD_norm (future_depth g i))

/-- Table-level scarcity metrics at row position `i` of the sorted table `ts`:
the future group of a row is its same-team rows strictly after it.  (Grouping
by team after the `(team, week)` sort makes each team's rows contiguous; the
suffix of the group seen from position `i` is exactly the same-team suffix of
the table.) -/
def futureTeamProbs (ts : List Row) (r : Row) (i : ℕ) : List ℚ :=
  ((ts.drop (i+1)).filter (fun s => s.team = r.team)).map
    (fun s => s.projected_win_prob)

def scarcity_boost_at (ts : List Row) (r : Row) (i : ℕ) : ℚ :=
  let fut := futureTeamProbs ts r i
  let mf := (fut.max?).getD 0
  let depth := fut.countP (fun q => decide (FUTURE_GOOD_THRESH ≤ q))
  W_SCARCITY_TOTAL *
    (clip 0 MAX_SCARCITY_CONTRIB
        (6/10 * norm_od (r.projected_win_prob - mf) + 4/10 * FD_norm depth)
      / MAX_SCARCITY_CONTRIB)

/-- Final handoff score of the row at position `i` of the sorted table. -/
def score_final (th : ℚ → ℚ) (ts : List Row) (r : Row) (i : ℕ) : ℚ :=
  clip01 (score_holiday th r + scarcity_boost_at ts r i)

/-- Source: `add_buckets` (no early-week demotion in this variant). -/
def bucket (x : ℚ) : String :=
  if HI_THRESH ≤ x then "High"
  else if MED_THRESH ≤ x then "Medium"
  else "Low"

/-- Week-cell order with NaN weeks last (`na_position="last"`). -/
def weekLe (a b : Option ℚ) : Bool :=
  match a, b with
  | some x, some y => decide (x ≤ y)
  | some _, none => true
  | none, some _ => false
  | none, none => true

/-- Source: `sort_values(["team", "week"])` key order: equal teams compare by
week, different teams by lexicographic team code. -/
def keyLe (a b : Row) : Prop :=
  if a.team = b.team then weekLe a.week b.week = true else a.team < b.team

instance : DecidableRel keyLe := fun a b => by
  unfold keyLe
  infer_instance

def sortRows (t : List Row) : List Row := t.insertionSort keyLe

/-- Source: `main`'s essential-column sanity check: the first essential column missing
from the roadmap raises `SystemExit`. -/
def mainCheck (cols : List String) : Except String Unit :=
  match essential_cols.find? (fun c => !(cols.contains c)) with
  | some c => Except.error ("Missing required column in roadmap: " ++ c)
  | none => Except.ok ()

/-- Source: `main`'s NaN guard: fail loudly if any row's final score is NaN, naming
the count and a sample (`head(12)`) of the offending rows' identity columns. -/
def nanGuard (xs : List (Row × Option ℚ)) : Except String Unit :=
  if xs.any (fun p => p.2.isNone) then
    Except.error
      ("spot_value_updates: "
        ++ toString (xs.countP (fun p => p.2.isNone))
        ++ " rows have NaN spot_value_score after compute; sample: "
        ++ String.intercalate ", "
            (((xs.filter (fun p => p.2.isNone)).take 12).map
              (fun p => p.1.team ++ " wk " ++ toString (repr p.1.week))))
  else Except.ok ()

/-- An output row: identity fields plus the two derived columns. -/
structure Out where
  row : Row
  spot_value_score : ℚ
  spot_value : String
deriving DecidableEq

/-- The scored table in pipeline order (the `(team, week)`-sorted order that
`add_future_scarcity_boost` leaves behind). -/
def processRows (th : ℚ → ℚ) (t : List Row) : List Out :=
  let ts := sortRows t
  ts.enum.map (fun p =>
    { row := p.2
      spot_value_score := score_final th ts p.2 p.1
      spot_value := bucket (score_final th ts p.2 p.1) })

/-- Source: `main`: essential-column check, scoring pipeline, NaN guard. -/
def run (th : ℚ → ℚ) (cols : List String) (t : List Row) :
    Except String (List Out) := do
  mainCheck cols
  let out := processRows th t
  nanGuard (out.map (fun o => (o.row, some o.spot_value_score)))
  pure out

/-- Source: `df["week"].isin(weeks)`: NaN weeks are never selected. -/
def weekIn (w : Option ℚ) (weeks : List ℚ) : Bool :=
  match w with
  | some x => weeks.contains x
  | none => false

/-- The week-filter merge of `main`: `df_final = df_orig.copy()`, then for
every column `df_final.loc[mask, col] = df.loc[mask, col]` with
`mask = df["week"].isin(weeks)`.  `.loc` aligns by index label; both frames
carry the reset `RangeIndex 0..n-1`, so label `i` of the original table is
overwritten (in every column, identity columns included) by row `i` of the
*pipeline-ordered* table whenever that row's week is selected. -/
def weekFilterMerge (orig proc : List Out) (weeks : List ℚ) : List Out :=
  List.zipWith (fun o p => if weekIn p.row.week weeks then p else o) orig proc

end HF

namespace USV

/-! ## `scripts/update_spot_values.py` — older row-wise scorer

This script computes `compute_score` per row (returning NaN when the win
probability is missing), adds a per-team scarcity boost, zero-fills NaN base
scores at the combine step (`spot_value_score.fillna(0) + scarcity_boost`),
buckets, and writes.  `main` contains no NaN guard: every scoring definition
below is a total function. -/

def W_WIN : ℚ := 80/100
def W_HOME : ℚ := 10/100
def W_REST : ℚ := 10/100
def MAX_DVOA_ADJ : ℚ := 6/100
def DVOA_WIDTH : ℚ := 15
def DAMPEN_AT : ℚ := 70/100
def FUTURE_GOOD_T : ℚ := 55/100
def W_SCARCITY_TOT : ℚ := 10/100
def MAX_SCARCITY : ℚ := 12/100
def HI : ℚ := 70/100
def MED : ℚ := 55/100

/-- One schedule-roadmap row.  `none` is a NaN cell.  (`row.get(..., 0) or 0`
maps a *missing key* or falsy value to 0, but a NaN cell is truthy in Python,
so NaN propagates; an absent optional column is therefore modelled as
`some 0`, a NaN cell as `none`.) -/
structure Row where
  week : Option ℚ
  team : String
  projected_win_prob : Option ℚ
  home_or_away : String
  rest_days : Option ℚ
  dvoa_gap : Option ℚ
deriving DecidableEq

/-- Source: `compute_score`: returns NaN when `projected_win_prob` is missing;
otherwise `W_WIN*win + W_HOME*home + W_REST*rest_norm` plus the (possibly
halved) DVOA adjustment.  NaN `rest_days`/`dvoa_gap` cells propagate. -/
def compute_score (th : ℚ → ℚ) (r : Row) : Option ℚ :=
  match r.projected_win_prob with
  | none => none
  | some win =>
    let home : ℚ := if r.home_or_away.trim.toLower = "home" then 1 else 0
    let rest_norm : Option ℚ := r.rest_days.map (fun x => clip (-3) 3 x / 6 + 1/2)
    let base : Option ℚ :=
      rest_norm.map (fun rn => W_WIN * win + W_HOME * home + W_REST * rn)
    let adj : Option ℚ := r.dvoa_gap.map (fun g =>
      let a := MAX_DVOA_ADJ * th (g / DVOA_WIDTH)
      if DAMPEN_AT ≤ win then a * (1/2) else a)
    oadd base adj

/-!  The scarcity loop runs per team on the week-sorted group.  For the row at
position `i` with probability cell `p` and strictly-future cells `future`,
`future_best` is the reversed cumulative maximum *including self* (a NaN cell
stays NaN at its own position, and NaN cells are skipped by `cummax`). -/

def future_best (p : Option ℚ) (future : List (Option ℚ)) : Option ℚ :=
  p.map (fun x => (future.filterMap id).foldl max x)

/-- Source: `no_better_future = p >= future_best - 1e-12` (False on NaN). -/
def no_better (p fb : Option ℚ) : Bool :=
  match p, fb with
  | some x, some y => decide (y - 1 / 10 ^ 12 ≤ x)
  | _, _ => false

/-- Source: `scarcity_boost` of one row:
`(p >= FUTURE_GOOD_T) * no_better_future * np.minimum(W*(1 + op_delta*2), MAX)`.
The two flags multiply as 0/1 floats; since `0 * NaN = NaN`, a NaN
`op_delta` (i.e. a NaN probability) makes the whole product NaN. -/
def scarcity_boost (p : Option ℚ) (future : List (Option ℚ)) : Option ℚ :=
  let fb := future_best p future
  let nb := no_better p fb
  let next_best := if nb then p else fb
  let op_delta := (osub p next_best).map (fun d => max 0 d)
  omul
    (some ((if oge p FUTURE_GOOD_T then (1 : ℚ) else 0) * (if nb then 1 else 0)))
    (op_delta.map (fun d => min (W_SCARCITY_TOT * (1 + d * 2)) MAX_SCARCITY))

/-- The combine step (`main`):
`spot_value_score = (compute_score.fillna(0) + scarcity_boost).clip(0, 1)`.
The zero-fill rescues a NaN base score, but a NaN boost re-poisons it. -/
def final_score (cs boost : Option ℚ) : Option ℚ :=
  (oadd (some (ofill 0 cs)) boost).map clip01

/-- Source: `bucket`: empty label on NaN, else fixed thresholds. -/
def bucket (x : Option ℚ) : String :=
  match x with
  | none => ""
  | some v => if HI ≤ v then "High" else if MED ≤ v then "Medium" else "Low"

end USV

/-! ## Concrete fixtures

The scoring pipelines are parameterized by the two transcendental kernels; the
properties below never depend on the kernels' values, so closed statements
instantiate them with simple rational stand-ins. -/

/-- Sample stand-in for `np.exp` in closed statements. -/
def eS : ℚ → ℚ := fun _ => 1

/-- Sample stand-in for `np.tanh` in closed statements. -/
def thS : ℚ → ℚ := fun _ => 0

/-- A fully-populated canonical roadmap row. -/
def svuBase : SVU.Row :=
  { week := some 7, team := "KC", opponent := "LAC", home_or_away := some "Home"
    projected_win_prob := some (8/10), rest_days := some 7, rating_gap := none
    injury_adjustment := some 0, dvoa_gap_dec := none, trend3_pp := none
    trend_band := "", is_thanksgiving := 0, is_black_friday := 0
    is_christmas := 0, plays_both_tg_xmas := 0 }

/-- A row whose `projected_win_prob` cell did not parse (NaN). -/
def svuRowNaN : SVU.Row := { svuBase with team := "SEA", projected_win_prob := none }

def svuTableNaN : List SVU.Row := [svuRowNaN]

/-- Two same-team rows: week 4 with probability 0.6, then week 9 with a NaN
probability. -/
def svuKC1 : SVU.Row := { svuBase with week := some 4, projected_win_prob := some (6/10) }

def svuKC2 : SVU.Row := { svuBase with week := some 9, projected_win_prob := none }

def svuTableKC : List SVU.Row := [svuKC1, svuKC2]

/-- The full canonical roadmap column set. -/
def svuAllCols : List String :=
  ["week", "team", "opponent", "home_or_away", "rest_days",
   "projected_win_prob", "rating_gap", "injury_adjustment",
   "is_thanksgiving", "is_black_friday", "is_christmas", "plays_both_tg_xmas",
   "dvoa_gap_dec", "trend3_pp", "trend_band"]

/-- The canonical roadmap column set with the essential `projected_win_prob`
column entirely absent. -/
def svuColsNoProb : List String :=
  ["week", "team", "opponent", "home_or_away", "rest_days",
   "rating_gap", "injury_adjustment",
   "is_thanksgiving", "is_black_friday", "is_christmas", "plays_both_tg_xmas",
   "dvoa_gap_dec", "trend3_pp", "trend_band"]

/-- A handoff row with the given team and week, otherwise neutral. -/
def hfRow (team : String) (week : Option ℚ) : HF.Row :=
  { week := week, team := team, opponent := "OPP", home_or_away := "Home"
    projected_win_prob := 1/2, rest_days := 6, rating_gap := none
    injury_adjustment := 0, holiday_flag := "", team_tot_dvoa := none
    opp_tot_dvoa := none, team_total_dvoa := none, opp_total_dvoa := none }

def hfB2 : HF.Row := hfRow "KC" (some 2)

def hfA1 : HF.Row := hfRow "KC" (some 1)

/-- A persisted table in roadmap order: KC's week 2 row first, then KC's
week 1 row (the generated roadmap is schedule-ordered, not sorted by
`(team, week)`). -/
def hfOrig : List HF.Out :=
  [{ row := hfB2, spot_value_score := 3/10, spot_value := "Low" },
   { row := hfA1, spot_value_score := 4/10, spot_value := "Low" }]

/-- The recomputed table, in the `(team, week)`-sorted order the handoff
pipeline leaves behind. -/
def hfProc : List HF.Out := HF.processRows thS [hfB2, hfA1]

/-- Week-filter merge selecting only week 1. -/
def hfMerged : List HF.Out := HF.weekFilterMerge hfOrig hfProc [1]

/-- An `update_spot_values` schedule row with an unparseable win probability. -/
def usvRowNaN : USV.Row :=
  { week := some 3, team := "DAL", projected_win_prob := none
    home_or_away := "Home", rest_days := some 6, dvoa_gap := some 0 }

/-! ## Helper lemmas -/

theorem le_foldl_max (l : List ℚ) : ∀ x a : ℚ, a ≤ x ∨ a ∈ l → a ≤ l.foldl max x := by
  induction l with
  | nil =>
    intro x a h
    rcases h with h | h
    · exact h
    · cases h
  | cons y ys ih =>
    intro x a h
    have h2 : a ≤ max x y ∨ a ∈ ys := by
      rcases h with h | h
      · exact Or.inl (h.trans (le_max_left x y))
      · rcases List.mem_cons.mp h with h | h
        · exact Or.inl (h ▸ le_max_right x y)
        · exact Or.inr h
    simpa using ih (max x y) a h2

/-- A member of a list is bounded by `max?.getD d` (the scripts' "suffix max,
default 0" idiom). -/
theorem le_max?_getD (l : List ℚ) (a : ℚ) (h : a ∈ l) (d : ℚ) :
    a ≤ (l.max?).getD d := by
  cases l with
  | nil => cases h
  | cons x xs =>
    have hc : (x :: xs).max? = some (xs.foldl max x) := rfl
    rw [hc]
    rcases List.mem_cons.mp h with h | h
    · exact le_foldl_max xs x a (Or.inl h.le)
    · exact le_foldl_max xs x a (Or.inr h)

theorem le_clip (lo hi x : ℚ) : lo ≤ clip lo hi x := le_max_left _ _

theorem clip_le (lo hi x : ℚ) (h : lo ≤ hi) : clip lo hi x ≤ hi :=
  max_le h (min_le_left _ _)

/-- Normal form of the canonical bucketizer on present cells. -/
theorem bucket_row_some (s : ℚ) (w : Int) :
    SVU.bucket_row (some s) (some w) =
      if SVU.HI_THRESH ≤ s then
        (if w ≤ 6 then Except.ok "Medium" else Except.ok "High")
      else if SVU.MED_THRESH ≤ s then Except.ok "Medium"
      else Except.ok "Low" := by
  simp [SVU.bucket_row, oge]

/-! ## Claims -/
/-- C2: the bucketizer assigns "High" iff `spot_value_score ≥ HI_THRESH`
(except that, with the early-week demotion policy of the canonical variant,
rows of weeks 1–6 at or above `HI_THRESH` are assigned "Medium" instead),
"Medium" iff the score is in `[MED_THRESH, HI_THRESH)` (or demoted), "Low"
otherwise; and `HI_THRESH > MED_THRESH` in both variants. -/
theorem claim2_bucket_consistency :
    (∀ (s : ℚ) (w : Int), 1 ≤ w →
      (SVU.bucket_row (some s) (some w) = Except.ok "High"
          ↔ SVU.HI_THRESH ≤ s ∧ ¬ w ≤ 6) ∧
      (SVU.bucket_row (some s) (some w) = Except.ok "Medium"
          ↔ (SVU.MED_THRESH ≤ s ∧ s < SVU.HI_THRESH)
            ∨ (SVU.HI_THRESH ≤ s ∧ w ≤ 6)) ∧
      (SVU.bucket_row (some s) (some w) = Except.ok "Low"
          ↔ s < SVU.MED_THRESH)) ∧
    (∀ s : ℚ,
      (HF.bucket s = "High" ↔ HF.HI_THRESH ≤ s) ∧
      (HF.bucket s = "Medium" ↔ HF.MED_THRESH ≤ s ∧ s < HF.HI_THRESH) ∧
      (HF.bucket s = "Low" ↔ s < HF.MED_THRESH)) ∧
    SVU.MED_THRESH < SVU.HI_THRESH ∧ HF.MED_THRESH < HF.HI_THRESH := by
  have hmh : SVU.MED_THRESH < SVU.HI_THRESH := by
    norm_num [SVU.MED_THRESH, SVU.HI_THRESH]
  have hmh2 : HF.MED_THRESH < HF.HI_THRESH := by
    norm_num [HF.MED_THRESH, HF.HI_THRESH]
  refine ⟨fun s w _ => ?_, fun s => ?_, hmh, hmh2⟩
  · rw [bucket_row_some]
    rcases le_or_lt SVU.HI_THRESH s with h1 | h1
    · have h3 : ¬ s < SVU.MED_THRESH := not_lt.mpr ((le_of_lt hmh).trans h1)
      rcases le_or_lt w 6 with h2 | h2
      · simp [h1, h2, h3]
      · simp [h1, not_le.mpr h2, h3, not_lt.mpr h1]
    · have hn : ¬ SVU.HI_THRESH ≤ s := not_le.mpr h1
      rcases le_or_lt SVU.MED_THRESH s with h2 | h2
      · simp [hn, h2, not_lt.mpr h2, h1]
      · simp [hn, not_le.mpr h2, h2]
  · unfold HF.bucket
    rcases le_or_lt HF.HI_THRESH s with h1 | h1
    · have h3 : ¬ s < HF.MED_THRESH := not_lt.mpr ((le_of_lt hmh2).trans h1)
      simp [h1, not_lt.mpr h1, h3]
    · have hn : ¬ HF.HI_THRESH ≤ s := not_le.mpr h1
      rcases le_or_lt HF.MED_THRESH s with h2 | h2
      · simp [hn, h2, h1, not_lt.mpr h2]
      · simp [hn, not_le.mpr h2, h2]

/-- Witness for C2 at a concrete score/week: a score of 0.6 in week 7 is
bucketed "High" by the canonical (demotion-enabled) bucketizer. -/
theorem claim2_witness :
    SVU.bucket_row (some (6/10)) (some 7) = Except.ok "High" :=
  ((claim2_bucket_consistency.1 (6/10) 7 (by norm_num)).1).mpr
    (by norm_num [SVU.HI_THRESH])

/-- C10: the canonical bucketizer is not total: a row whose week cell is NA
and whose score is at or above `HI_THRESH` makes `week <= 6` evaluate `pd.NA`
as a boolean, raising an exception instead of producing a label. -/
theorem claim10_bucket_partiality (s : ℚ) (h : SVU.HI_THRESH ≤ s) :
    SVU.bucket_row (some s) none = Except.error () := by
  simp [SVU.bucket_row, oge, h]

/-- Witness for C10 at score 1. -/
theorem claim10_witness : SVU.bucket_row (some 1) none = Except.error () :=
  claim10_bucket_partiality 1 (by norm_num [SVU.HI_THRESH])

/-- C3 (amended): the handoff evaluator's `opportunity_delta[i]` is
`projected_win_prob[i] − max_future_prob[i]` with NO `max(0, ·)` clamp: when a
strictly-later week of the team has an equal-or-higher probability the delta
is merely ≤ 0 (typically negative).  The clamped quantity of the claim lives
in the canonical scorer, whose `sv_scarcity_raw` (hence the whole scarcity
contribution) is zero whenever some strictly-later same-team row has an
equal-or-higher filled probability. -/
theorem claim3_opportunity_delta :
    (∀ (g : List ℚ) (i : ℕ) (q : ℚ),
      q ∈ g.drop (i+1) → g.getD i 0 ≤ q → HF.opportunity_delta g i ≤ 0) ∧
    (∀ (t : List SVU.Row) (r : SVU.Row) (i : ℕ) (p : ℚ),
      r.projected_win_prob = some p →
      (∃ q ∈ SVU.futureTeamProbs t r i, p ≤ q) →
      SVU.sv_scarcity_raw t r i = some 0 ∧ SVU.sv_scarcity t r i = some 0) := by
  constructor
  · intro g i q hq hle
    have h1 : q ≤ ((g.drop (i+1)).max?).getD 0 := le_max?_getD _ q hq 0
    unfold HF.opportunity_delta HF.max_future
    have := hle.trans h1
    linarith
  · intro t r i p hp hex
    obtain ⟨q, hq, hpq⟩ := hex
    have hmf : p ≤ SVU.max_future_prob t r i :=
      hpq.trans (le_max?_getD _ q hq 0)
    have hraw : max 0 (p - SVU.max_future_prob t r i) = 0 :=
      max_eq_left (by linarith)
    have h0 : SVU.sv_scarcity_raw t r i = some 0 := by
      unfold SVU.sv_scarcity_raw
      rw [hp, Option.map_some', hraw]
      norm_num [clip01, clip]
    refine ⟨h0, ?_⟩
    unfold SVU.sv_scarcity
    rw [h0, Option.map_some', mul_zero]

/-- Witness for C3 (amended): with the team's probabilities `[0.5, 0.8]`, the
week at position 0 (a later week is higher) has nonpositive `opportunity_delta`
in the handoff evaluator. -/
theorem claim3_witness :
    HF.opportunity_delta [1/2, 8/10] 0 ≤ 0 :=
  claim3_opportunity_delta.1 [1/2, 8/10] 0 (8/10)
    (by norm_num) (by norm_num)

/-- Counterexample to C3 as stated: on probabilities `[0.5, 0.8]` (weeks
ascending) the handoff `opportunity_delta[0]` is `-0.3`, not
`max(0, 0.5 - 0.8) = 0`. -/
theorem claim3_counterexample :
    HF.opportunity_delta [1/2, 8/10] 0 = -(3/10) ∧
    max 0 ((1:ℚ)/2 - HF.max_future [1/2, 8/10] 0) = 0 ∧
    (-(3/10) : ℚ) ≠ 0 := by
  have hm : HF.max_future [1/2, 8/10] 0 = 8/10 := by
    simp [HF.max_future, List.max?]
  refine ⟨?_, ?_, by norm_num⟩
  · unfold HF.opportunity_delta
    rw [hm]
    norm_num
  · rw [hm]
    norm_num [max_def]

/-- C4: for a team's last (maximum-week) row — the last element of the
team's week-ascending group — `max_future_prob = 0` and `opportunity_delta`
collapses to the row's own `projected_win_prob`; in the canonical scorer a row
with no later same-team row likewise gets `max_future_prob = 0`. -/
theorem claim4_last_week_boundary :
    (∀ (g : List ℚ) (h : g ≠ []),
      HF.max_future g (g.length - 1) = 0 ∧
      HF.opportunity_delta g (g.length - 1) = g.getLast h) ∧
    (∀ (t : List SVU.Row) (r : SVU.Row) (i : ℕ),
      SVU.futureTeamProbs t r i = [] → SVU.max_future_prob t r i = 0) := by
  constructor
  · intro g h
    have hp : 0 < g.length := List.length_pos.mpr h
    have hd : g.length - 1 + 1 = g.length := Nat.succ_pred_eq_of_pos hp
    have hmf : HF.max_future g (g.length - 1) = 0 := by
      unfold HF.max_future
      rw [hd, List.drop_length]
      rfl
    refine ⟨hmf, ?_⟩
    unfold HF.opportunity_delta
    rw [hmf, sub_zero,
      List.getD_eq_get g 0 (Nat.sub_lt hp Nat.one_pos),
      List.getLast_eq_get]
  · intro t r i h
    unfold SVU.max_future_prob
    rw [h]
    rfl

/-- Witness for C4 on the probabilities `[0.5, 0.7]`: the last week has
`max_future_prob = 0` and `opportunity_delta = 0.7`. -/
theorem claim4_witness :
    HF.max_future [(1:ℚ)/2, 7/10] ([(1:ℚ)/2, 7/10].length - 1) = 0 ∧
    HF.opportunity_delta [(1:ℚ)/2, 7/10] ([(1:ℚ)/2, 7/10].length - 1)
      = [(1:ℚ)/2, 7/10].getLast (by simp) :=
  claim4_last_week_boundary.1 [(1:ℚ)/2, 7/10] (by simp)

/-- C5 (amended): the handoff scarcity contribution is `W_SCARCITY_TOTAL`
times a multiplier in [0,1], but the multiplier is NOT the 60/40 combination
itself: it is the combination clipped at `MAX_SCARCITY_CONTRIB` (= 0.12) and
rescaled by `1 / MAX_SCARCITY_CONTRIB`, i.e. `min(combo, 0.12) / 0.12` — the
60/40 combination saturates at 0.12. -/
theorem claim5_scarcity_combination (g : List ℚ) (i : ℕ) :
    0 ≤ 6/10 * HF.norm_od (HF.opportunity_delta g i)
        + 4/10 * HF.FD_norm (HF.future_depth g i) ∧
    HF.future_scarcity_boost g i
      = HF.W_SCARCITY_TOTAL *
          (min (6/10 * HF.norm_od (HF.opportunity_delta g i)
                + 4/10 * HF.FD_norm (HF.future_depth g i))
              HF.MAX_SCARCITY_CONTRIB
            / HF.MAX_SCARCITY_CONTRIB) ∧
    ∃ m, HF.future_scarcity_boost g i = HF.W_SCARCITY_TOTAL * m
        ∧ 0 ≤ m ∧ m ≤ 1 := by
  have hod : 0 ≤ HF.norm_od (HF.opportunity_delta g i) := by
    unfold HF.norm_od
    rw [if_pos (by norm_num [HF.OD_MARGIN_HIGH, HF.OD_MARGIN_LOW])]
    have h1 := le_clip HF.OD_MARGIN_LOW HF.OD_MARGIN_HIGH (HF.opportunity_delta g i)
    have hpos : (0:ℚ) < HF.OD_MARGIN_HIGH - HF.OD_MARGIN_LOW := by
      norm_num [HF.OD_MARGIN_HIGH, HF.OD_MARGIN_LOW]
    exact div_nonneg (by linarith) hpos.le
  have hfd : 0 ≤ HF.FD_norm (HF.future_depth g i) := by
    unfold HF.FD_norm
    have h1 := clip_le 0 3 ((HF.future_depth g i : ℚ)) (by norm_num)
    linarith
  have hcombo : 0 ≤ 6/10 * HF.norm_od (HF.opportunity_delta g i)
      + 4/10 * HF.FD_norm (HF.future_depth g i) := by positivity
  have hclip : HF.future_scarcity_boost_raw g i
      = min (6/10 * HF.norm_od (HF.opportunity_delta g i)
            + 4/10 * HF.FD_norm (HF.future_depth g i)) HF.MAX_SCARCITY_CONTRIB := by
    unfold HF.future_scarcity_boost_raw clip
    rw [max_eq_right, min_comm]
    exact le_min (by norm_num [HF.MAX_SCARCITY_CONTRIB]) hcombo
  refine ⟨hcombo, ?_, ?_⟩
  · unfold HF.future_scarcity_boost
    rw [hclip]
  · refine ⟨HF.future_scarcity_boost_raw g i / HF.MAX_SCARCITY_CONTRIB, rfl, ?_, ?_⟩
    · have h1 := le_clip 0 HF.MAX_SCARCITY_CONTRIB
        (6/10 * HF.norm_od (HF.opportunity_delta g i)
          + 4/10 * HF.FD_norm (HF.future_depth g i))
      exact div_nonneg h1 (by norm_num [HF.MAX_SCARCITY_CONTRIB])
    · have h1 := clip_le 0 HF.MAX_SCARCITY_CONTRIB
        (6/10 * HF.norm_od (HF.opportunity_delta g i)
          + 4/10 * HF.FD_norm (HF.future_depth g i))
        (by norm_num [HF.MAX_SCARCITY_CONTRIB])
      rw [div_le_one (by norm_num [HF.MAX_SCARCITY_CONTRIB])]
      exact h1

/-- Counterexample to C5 as stated: for a team with the single probability
`0.0`, the code adds `0.10` (the combination `0.64` saturates at `0.12` and is
rescaled to `1`), while "`W_SCARCITY_TOTAL` times the 60/40 combination"
would be `0.064`. -/
theorem claim5_counterexample :
    HF.future_scarcity_boost [(0:ℚ)] 0 = 1/10 ∧
    HF.claimedBoost [(0:ℚ)] 0 = 8/125 ∧
    ((1:ℚ)/10) ≠ 8/125 := by
  have hdelta : HF.opportunity_delta [(0:ℚ)] 0 = 0 := by
    norm_num [HF.opportunity_delta, HF.max_future, List.max?]
  have hdepth : HF.future_depth [(0:ℚ)] 0 = 0 := by
    norm_num [HF.future_depth]
  have hod : HF.norm_od 0 = 2/5 := by
    norm_num [HF.norm_od, HF.OD_MARGIN_HIGH, HF.OD_MARGIN_LOW, clip,
      max_def, min_def]
  have hfd : HF.FD_norm 0 = 1 := by
    norm_num [HF.FD_norm, clip, max_def, min_def]
  refine ⟨?_, ?_, by norm_num⟩
  · unfold HF.future_scarcity_boost HF.future_scarcity_boost_raw
    rw [hdelta, hdepth, hod, hfd]
    norm_num [clip, max_def, min_def, HF.MAX_SCARCITY_CONTRIB, HF.W_SCARCITY_TOTAL]
  · unfold HF.claimedBoost
    rw [hdelta, hdepth, hod, hfd]
    norm_num [HF.W_SCARCITY_TOTAL]

/-- The row the canonical `ensure_columns` produces from `svuRowNaN` when the
`projected_win_prob` column is entirely absent: the probability is fabricated
as the constant default 0.50. -/
def svuFabRow : SVU.Row := SVU.ensure_columns svuColsNoProb svuRowNaN

/-- C1 (amended): in the canonical scorer every component step clips the
running total, so after each additive component step the score is in [0,1]
unconditionally, and — provided the row's `projected_win_prob` parsed
(non-NaN) — the final score after the scarcity step is a present value in
[0,1].  (Without that proviso the scarcity step turns the score into NaN; see
the counterexample.)  Here `r` stands for the row at position `i` of table
`t`, and the bounds hold for every row and position. -/
theorem claim1_range_invariant (e th : ℚ → ℚ) (t : List SVU.Row) (r : SVU.Row)
    (i : ℕ) (h : r.projected_win_prob.isSome) :
    (0 ≤ SVU.score_base e r ∧ SVU.score_base e r ≤ 1) ∧
    (0 ≤ SVU.score_rating e th r ∧ SVU.score_rating e th r ≤ 1) ∧
    (0 ≤ SVU.score_dvoa e th r ∧ SVU.score_dvoa e th r ≤ 1) ∧
    (0 ≤ SVU.score_injury e th r ∧ SVU.score_injury e th r ≤ 1) ∧
    (0 ≤ SVU.score_holiday e th r ∧ SVU.score_holiday e th r ≤ 1) ∧
    ∃ q, SVU.score_final e th t r i = some q ∧ 0 ≤ q ∧ q ≤ 1 := by
  obtain ⟨p, hp⟩ := Option.isSome_iff_exists.mp h
  refine ⟨⟨clip01_nonneg _, clip01_le_one _⟩, ⟨clip01_nonneg _, clip01_le_one _⟩,
    ⟨clip01_nonneg _, clip01_le_one _⟩, ⟨clip01_nonneg _, clip01_le_one _⟩,
    ⟨clip01_nonneg _, clip01_le_one _⟩, ?_⟩
  refine ⟨clip01 (SVU.score_holiday e th r
      + SVU.W_SCARCITY_TOTAL
          * clip01 (max 0 (p - SVU.max_future_prob t r i) / (30/100))
      + SVU.NOW_NEVER_BONUS
          * clip01 (max 0 (p - SVU.max_future_prob t r i - SVU.NOW_NEVER_MARGIN)
              / (10/100))),
    ?_, clip01_nonneg _, clip01_le_one _⟩
  unfold SVU.score_final SVU.sv_scarcity SVU.sv_scarcity_raw SVU.sv_now_or_never
  rw [hp]
  simp [oadd]

/-- Witness for C1 (amended) on a concrete one-row table. -/
theorem claim1_witness :
    ∃ q, SVU.score_final eS thS [svuBase] svuBase 0 = some q ∧ 0 ≤ q ∧ q ≤ 1 :=
  (claim1_range_invariant eS thS [svuBase] svuBase 0 rfl).2.2.2.2.2

/-- Counterexample to C1 as stated: a row whose `projected_win_prob` did not
parse ends the full pipeline with a NaN `spot_value_score` (the scarcity step
subtracts from the NaN cell), so `0 ≤ spot_value_score ≤ 1` fails for that
row. -/
theorem claim1_counterexample :
    SVU.score_final eS thS svuTableNaN svuRowNaN 0 = none ∧
    ¬ ∃ q : ℚ, SVU.score_final eS thS svuTableNaN svuRowNaN 0 = some q
        ∧ 0 ≤ q ∧ q ≤ 1 := by
  have h : SVU.score_final eS thS svuTableNaN svuRowNaN 0 = none := rfl
  exact ⟨h, by simp [h]⟩

/-- C9 (amended): a row with a missing/unparseable `projected_win_prob` is
treated inconsistently in the canonical scorer: the win component fills it
with 0.5 (`winProbFilled`), while the scarcity evaluator's cummax input fills
it with 0.0 (`probForScarcity`), so the row enters every earlier same-team
week's `max_future_prob` as probability zero.  The row's own scarcity credit,
however, is computed from the unfilled cell and is NaN (not zero). -/
theorem claim9_inconsistent_nan (r : SVU.Row) (h : r.projected_win_prob = none) :
    SVU.winProbFilled r = 1/2 ∧ SVU.probForScarcity r = 0 ∧
    (∀ (t : List SVU.Row) (i : ℕ), SVU.sv_scarcity t r i = none) := by
  refine ⟨?_, ?_, fun t i => ?_⟩
  · unfold SVU.winProbFilled
    rw [h]
    rfl
  · unfold SVU.probForScarcity
    rw [h]
    rfl
  · unfold SVU.sv_scarcity SVU.sv_scarcity_raw
    rw [h]
    rfl

/-- Witness for C9 (amended) at the concrete NaN row. -/
theorem claim9_witness :
    SVU.winProbFilled svuRowNaN = 1/2 ∧ SVU.probForScarcity svuRowNaN = 0 ∧
    (∀ (t : List SVU.Row) (i : ℕ), SVU.sv_scarcity t svuRowNaN i = none) :=
  claim9_inconsistent_nan svuRowNaN rfl

/-- Counterexample to C9's parenthetical "that row gets no scarcity credit":
on the two-row KC table the NaN-probability week-9 row's scarcity column is
NaN (`none`), not zero, and its final score is NaN; meanwhile the week-4 row
indeed sees `max_future_prob = 0` (the 0.0 substitution). -/
theorem claim9_counterexample :
    SVU.sv_scarcity svuTableKC svuKC2 1 = none ∧
    SVU.sv_scarcity svuTableKC svuKC2 1 ≠ some 0 ∧
    SVU.max_future_prob svuTableKC svuKC1 0 = 0 ∧
    SVU.score_final eS thS svuTableKC svuKC2 1 = none := by
  have h1 : SVU.sv_scarcity svuTableKC svuKC2 1 = none := rfl
  have h3 : SVU.max_future_prob svuTableKC svuKC1 0 = 0 := rfl
  have h4 : SVU.score_final eS thS svuTableKC svuKC2 1 = none := rfl
  exact ⟨h1, by simp [h1], h3, h4⟩

/-- C6 (amended): the handoff updater's guard raises a blocking error (naming
offending rows) exactly when some row's final score is NaN, and passes iff all
scores are populated.  The other two variants have no such guard: the older
`update_spot_values` combine step zero-fills a NaN base score
(`fillna(0)`), and the canonical scorer buckets a NaN score as "Low" without
any error. -/
theorem claim6_nan_policy :
    (∀ xs : List (HF.Row × Option ℚ),
      HF.nanGuard xs = Except.ok () ↔ ∀ p ∈ xs, (Prod.snd p).isSome) ∧
    (∀ b : ℚ, USV.final_score none (some b) = some (clip01 (0 + b))) ∧
    (∀ w : Option Int, SVU.bucket_row none w = Except.ok "Low") := by
  refine ⟨fun xs => ?_, fun b => rfl, fun w => rfl⟩
  unfold HF.nanGuard
  split_ifs with hx
  · refine iff_of_false (by simp) ?_
    rw [List.any_eq_true] at hx
    obtain ⟨p, hp, hnone⟩ := hx
    intro hall
    have h1 := hall p hp
    rw [Option.isNone_iff_eq_none.mp hnone] at h1
    simp at h1
  · refine iff_of_true rfl ?_
    intro p hp
    rw [List.any_eq_true] at hx
    cases hps : p.2 with
    | none => exact absurd ⟨p, hp, by simp [hps]⟩ hx
    | some v => simp [hps]

/-- Counterexample to C6 as stated: the canonical run on a one-row table with
an unparseable win probability completes with a NaN score bucketed "Low" and
writes it (no blocking error), and the `update_spot_values` combine step on the
same situation completes with a NaN score and an empty bucket. -/
theorem claim6_counterexample :
    SVU.run eS thS svuAllCols svuTableNaN = Except.ok [(none, "Low")] ∧
    USV.final_score (USV.compute_score thS usvRowNaN)
        (USV.scarcity_boost usvRowNaN.projected_win_prob []) = none ∧
    USV.bucket (USV.final_score (USV.compute_score thS usvRowNaN)
        (USV.scarcity_boost usvRowNaN.projected_win_prob [])) = "" :=
  ⟨rfl, rfl, rfl⟩

/-- C7 (amended): the handoff updater aborts with a fatal error — before any
scoring or writing — when any of the six essential columns is entirely absent.
The canonical scorer does not: it fabricates constant defaults for absent
`projected_win_prob` / `home_or_away` / `rest_days` columns and completes. -/
theorem claim7_essential_columns (th : ℚ → ℚ) (cols : List String)
    (t : List HF.Row)
    (h : ∃ c ∈ HF.essential_cols, c ∉ cols) :
    ∃ msg, HF.run th cols t = Except.error msg := by
  have hfind : (HF.essential_cols.find? (fun c => !(cols.contains c))).isSome := by
    rw [List.find?_isSome]
    obtain ⟨c, hc1, hc2⟩ := h
    exact ⟨c, hc1, by simp [hc2]⟩
  obtain ⟨c, hc⟩ := Option.isSome_iff_exists.mp hfind
  refine ⟨"Missing required column in roadmap: " ++ c, ?_⟩
  unfold HF.run HF.mainCheck
  rw [hc]
  rfl

/-- Witness for C7 (amended): a roadmap without `projected_win_prob` aborts. -/
theorem claim7_witness :
    ∃ msg, HF.run thS svuColsNoProb [] = Except.error msg :=
  claim7_essential_columns thS svuColsNoProb []
    ⟨"projected_win_prob", by decide, by decide⟩

/-- C8 (code bug): in week-filter mode the handoff merge assigns by positional
index label, but the pipeline has re-sorted the table by `(team, week)` and
reset the index, so the selected rows' recomputed values land on the rows that
happen to occupy the same *positions* in the original order.  On the
roadmap-ordered table `[KC week 2, KC week 1]` with only week 1 selected, the
merged table's first row — originally the untouched week-2 record — is
overwritten by the recomputed week-1 row (identity columns included), so the
unselected `(KC, 2)` record is destroyed and `(KC, 1)` appears twice. -/
theorem claim8_week_filter_misalignment :
    hfMerged.map (fun o => (o.row.team, o.row.week))
        = [("KC", some 1), ("KC", some 1)] ∧
    hfOrig.map (fun o => (o.row.team, o.row.week))
        = [("KC", some 2), ("KC", some 1)] := by
  constructor
  · rfl
  · rfl

/-- Counterexample to C7 as stated: with the `projected_win_prob` column
entirely absent, the canonical scorer does not abort — `ensure_columns`
fabricates the constant default 0.50 for every row, and the run completes,
scoring the fabricated row 0.525 and bucketing it "High". -/
theorem claim7_counterexample :
    svuFabRow.projected_win_prob = some (50/100) ∧
    SVU.run eS thS svuColsNoProb svuTableNaN
      = Except.ok [(some (21/40), "High")] := by
  have hp : svuFabRow.projected_win_prob = some (50/100) := rfl
  have hwin : SVU.win_component eS svuFabRow = 21/100 := by
    unfold SVU.win_component eS
    norm_num [SVU.W_WIN]
  have hhome : SVU.sv_home svuFabRow = 12/100 := by
    unfold SVU.sv_home
    rw [if_pos (by decide)]
    rfl
  have hrest : SVU.sv_rest svuFabRow = 1/20 := by
    unfold SVU.sv_rest
    have hr : svuFabRow.rest_days = some 7 := rfl
    rw [hr]
    norm_num [ofill, clip, max_def, min_def, SVU.W_REST]
  have hbase : SVU.score_base eS svuFabRow = 19/50 := by
    unfold SVU.score_base
    rw [hwin, hhome, hrest]
    norm_num [clip01, clip, max_def, min_def]
  have hrat : SVU.sv_rating thS svuFabRow = 0 := by
    unfold SVU.sv_rating thS
    norm_num
  have hsr : SVU.score_rating eS thS svuFabRow = 19/50 := by
    unfold SVU.score_rating
    rw [hbase, hrat]
    norm_num [clip01, clip, max_def, min_def]
  have hdvoa : SVU.sv_dvoa svuFabRow = 0 := by
    unfold SVU.sv_dvoa SVU.bandBump
    have h1 : svuFabRow.dvoa_gap_dec = none := rfl
    have h2 : svuFabRow.trend3_pp = none := rfl
    have h3 : svuFabRow.trend_band = "" := rfl
    have h4 : svuFabRow.week = some 7 := rfl
    rw [h1, h2, h3, h4]
    rw [if_neg (by decide), if_neg (by decide)]
    norm_num [ofill, clip, max_def, min_def, SVU.W_DVOA_LEVEL, SVU.W_DVOA_TREND,
      SVU.LEVEL_CAP, SVU.TREND_SCALE_PP, SVU.MAX_TREND_BONUS]
  have hsd : SVU.score_dvoa eS thS svuFabRow = 19/50 := by
    unfold SVU.score_dvoa
    rw [hsr, hdvoa]
    norm_num [clip01, clip, max_def, min_def]
  have hinj : SVU.sv_injury svuFabRow = 0 := by
    unfold SVU.sv_injury
    have h1 : svuFabRow.injury_adjustment = some 0 := rfl
    rw [h1]
    norm_num [ofill, clip, max_def, min_def, SVU.W_INJURY, SVU.INJURY_CAP]
  have hsi : SVU.score_injury eS thS svuFabRow = 19/50 := by
    unfold SVU.score_injury
    rw [hsd, hinj]
    norm_num [clip01, clip, max_def, min_def]
  have hhol : SVU.sv_holiday svuFabRow = 0 := by
    unfold SVU.sv_holiday
    have h1 : svuFabRow.is_thanksgiving = 0 := rfl
    have h2 : svuFabRow.is_black_friday = 0 := rfl
    have h3 : svuFabRow.is_christmas = 0 := rfl
    have h4 : svuFabRow.plays_both_tg_xmas = 0 := rfl
    rw [h1, h2, h3, h4]
    norm_num
  have hsh : SVU.score_holiday eS thS svuFabRow = 19/50 := by
    unfold SVU.score_holiday
    rw [hsi, hhol]
    norm_num [clip01, clip, max_def, min_def]
  have hmf : SVU.max_future_prob [svuFabRow] svuFabRow 0 = 0 := rfl
  have hsc : SVU.sv_scarcity [svuFabRow] svuFabRow 0 = some (3/25) := by
    unfold SVU.sv_scarcity SVU.sv_scarcity_raw
    rw [hp, Option.map_some', hmf, Option.map_some']
    norm_num [clip01, clip, max_def, min_def, SVU.W_SCARCITY_TOTAL]
  have hnn : SVU.sv_now_or_never [svuFabRow] svuFabRow 0 = some (1/40) := by
    unfold SVU.sv_now_or_never
    rw [hp, Option.map_some', hmf]
    norm_num [clip01, clip, max_def, min_def, SVU.NOW_NEVER_BONUS,
      SVU.NOW_NEVER_MARGIN]
  have hsf : SVU.score_final eS thS [svuFabRow] svuFabRow 0 = some (21/40) := by
    unfold SVU.score_final
    rw [hsc, hnn, hsh]
    show (oadd (oadd (some (19/50)) (some (3/25))) (some (1/40))).map clip01
        = some (21/40)
    simp only [oadd, Option.map_some']
    norm_num [clip01, clip, max_def, min_def]
  have hb : SVU.bucket_row (some (21/40)) (some 7) = Except.ok "High" := by
    rw [bucket_row_some]
    rw [if_pos (by norm_num [SVU.HI_THRESH]), if_neg (by norm_num)]
  have hwk : svuFabRow.week = some 7 := rfl
  refine ⟨hp, ?_⟩
  unfold SVU.run
  show ([((0:ℕ), svuFabRow)].mapM (fun p =>
      Except.map (fun b => (SVU.score_final eS thS [svuFabRow] p.2 p.1, b))
        (SVU.bucket_row (SVU.score_final eS thS [svuFabRow] p.2 p.1) p.2.week)))
    = Except.ok [(some (21/40), "High")]
  rw [List.mapM_cons, List.mapM_nil]
  simp only [hsf, hwk, hb]
  rfl

/-- Witness for C5 (amended) on the single-week team `[0.5]`. -/
theorem claim5_witness :
    ∃ m, HF.future_scarcity_boost [(1:ℚ)/2] 0 = HF.W_SCARCITY_TOTAL * m
        ∧ 0 ≤ m ∧ m ≤ 1 :=
  (claim5_scarcity_combination [(1:ℚ)/2] 0).2.2

/-- Witness for C6 (amended): the guard passes on an all-populated table. -/
theorem claim6_witness :
    HF.nanGuard [(hfA1, some (1/2))] = Except.ok () :=
  (claim6_nan_policy.1 [(hfA1, some (1/2))]).mpr (by simp)
